import Mathlib

/-!
Shallow embedding of `src/prepdb.py` (RDS admin check and per-service
database credential rotation).

The script enumerates RDS instances and, per instance: filters read
replicas and non-postgres engines, derives env/service from the
identifier, fetches the admin password from Secrets Manager, checks
connectivity, optionally creates/updates a `service.<service>` role, and
stores the generated password in Secrets Manager under `DB_PASSWORD`.

External collaborators (AWS Secrets Manager, the postgres endpoint, the
`secrets` random source) are modelled by explicit state
(`World`) plus a failure-injection environment (`FaultEnv`) and an
oracle for random choices.  Uncaught Python exceptions are modelled by
`Except PyErr`; every externally visible action is recorded in a trace
of `Event`s so that "never attempts X" properties are statements about
the trace.
-/

namespace PrepDb

/-- Model of Python `str.split(sep)` for a one-character separator:
accumulate characters until the separator, emitting a fragment at each
separator and at the end (so the result is always non-empty). -/
def splitAux (sep : Char) : List Char → List Char → List String
  | [], acc => [String.mk acc.reverse]
  | c :: cs, acc =>
    if c = sep then String.mk acc.reverse :: splitAux sep cs []
    else splitAux sep cs (c :: acc)

/-- Python `s.split(sep)` with a single-character separator, as used by
`db_identifier.split("-")` in the source. -/
def pySplit (s : String) (sep : Char) : List String := splitAux sep s.toList []

/-- Python `str.lower()` on ASCII strings (identifiers here are ASCII). -/
def pyLower (s : String) : String := String.mk (s.toList.map Char.toLower)

/-- Python `s.startswith(p)`. -/
def pyStartsWith (s p : String) : Bool := p.toList.isPrefixOf s.toList

/-- A value stored in Secrets Manager (`SecretString`).  The source
either returns it raw (admin passwords) or runs `json.loads` on it:
`json obj` is the serialization of a JSON object of string values,
`plain s` is a string `s` that is not valid JSON (e.g. a raw
password), on which `json.loads` raises. -/
inductive SStr where
  | json (m : List (String × String))
  | plain (s : String)
deriving DecidableEq, Repr

/-- Python truthiness of the secret string, used by `if admin_password:`
in the driver loop: an empty raw string is falsy; a serialized JSON
object is a non-empty string, hence truthy. -/
def SStr.truthy : SStr → Bool
  | .json _ => true
  | .plain s => s != ""

/-- Uncaught Python exceptions that can escape the per-instance code:
`indexError` from `db_identifier.split("-")[1]` on a malformed
identifier, `jsonDecodeError` from `json.loads` on a secret value that
is not valid JSON. -/
inductive PyErr where
  | indexError
  | jsonDecodeError
deriving DecidableEq, Repr

/-- Externally visible actions of the script, in order of occurrence.
`connect host ok` is an attempt to open a database connection (with its
outcome), `closeConn` an explicit `conn.close()`; the `sql*` events are
`cur.execute` calls; the `secret*` events are Secrets Manager API
calls (`get_secret_value`, `update_secret`, `create_secret`). -/
inductive Event where
  | connect (host : String) (ok : Bool)
  | closeConn (host : String)
  | sqlExistsQuery (role : String)
  | sqlCreateUser (role : String)
  | sqlAlterUser (role : String)
  | sqlGrant (db : String) (role : String)
  | secretGet (name : String)
  | secretUpdate (name : String)
  | secretCreate (name : String)
deriving DecidableEq, Repr

/-- Association-list lookup (a Secrets Manager store keyed by secret
name, or a JSON object keyed by string). -/
def alookup {β : Type} : List (String × β) → String → Option β
  | [], _ => none
  | (k', v) :: rest, k => if k' = k then some v else alookup rest k

/-- Insert-or-update for an association list, preserving all other
entries: models Python `d[k] = v` on a dict and a create-or-update
write to Secrets Manager. -/
def setKey {β : Type} : List (String × β) → String → β → List (String × β)
  | [], k, v => [(k, v)]
  | (k', v') :: rest, k, v =>
    if k' = k then (k, v) :: rest else (k', v') :: setKey rest k v

/-- One RDS instance descriptor as consumed by the driver loop:
`DBInstanceIdentifier`, `Engine`, `DBName`, endpoint address and port,
and the optional `ReadReplicaSourceDBInstanceIdentifier` field. -/
structure Instance where
  identifier : String
  engine : String
  dbName : String
  host : String
  port : Nat
  replicaSource : Option String

/-- The mutable external state threaded through the run: the role
catalog of each database server (keyed by endpoint host) and the
Secrets Manager store. -/
structure World where
  dbRoles : String → List String
  secrets : List (String × SStr)

/-- Failure injection for the external collaborators, keyed by endpoint
host (database operations) or secret name (Secrets Manager operations):
`...Ok x = false` means that call raises `psycopg2.Error`;
`adminGetFail` / `svcGetFail` / `svcUpdateFail` means that Secrets
Manager call raises a `ClientError` other than
`ResourceNotFoundException` (absence of the name itself models
`ResourceNotFoundException`).  `choice` is the `secrets.choice` oracle,
keyed by instance identifier. -/
structure FaultEnv where
  checkConnectOk : String → Bool
  mutConnectOk : String → Bool
  existsQueryOk : String → Bool
  createOk : String → Bool
  alterOk : String → Bool
  grantOk : String → Bool
  adminGetFail : String → Bool
  svcGetFail : String → Bool
  svcUpdateFail : String → Bool
  choice : String → Nat → Nat

/-- `DB_ADMIN_USER = "admin"`. -/
def DB_ADMIN_USER : String := "admin"

/-- `string.ascii_letters`: lowercase then uppercase. -/
def ascii_letters : List Char :=
  "abcdefghijklmnopqrstuvwxyzABCDEFGHIJKLMNOPQRSTUVWXYZ".toList

/-- `string.digits`. -/
def ascii_digits : List Char := "0123456789".toList

/-- `password_characters = string.ascii_letters + string.digits`. -/
def password_characters : List Char := ascii_letters ++ ascii_digits

/-- `generate_random_password`: joins `length` characters, each produced
by `secrets.choice(password_characters)`.  The random source is the
oracle `choice`; `secrets.choice` returns an element of the sequence,
modelled by indexing with `choice i` reduced modulo the alphabet
size. -/
def generate_random_password (choice : Nat → Nat) (length : Nat) : String :=
  String.mk ((List.range length).map fun i =>
    password_characters.getD (choice i % password_characters.length) 'a')

/-- The default of the `length=12` parameter of
`generate_random_password`. -/
def defaultPasswordLength : Nat := 12

/-- `get_admin_password`: one `get_secret_value` call; every
`ClientError` (absent secret or injected failure) is caught and yields
`None`; otherwise the raw `SecretString` is returned. -/
def get_admin_password (fenv : FaultEnv) (secrets : List (String × SStr))
    (secret_name : String) : List Event × Option SStr :=
  ([Event.secretGet secret_name],
    if fenv.adminGetFail secret_name then none else alookup secrets secret_name)

/-- `user_exists`: the role-catalog existence query
(`SELECT 1 FROM pg_roles WHERE rolname=%s`), given the server's role
list.  Failure of the `execute` itself is injected at the call site. -/
def user_exists (roles : List String) (username : String) : Bool :=
  roles.contains username

/-- `check_rds_login`: connect and immediately close on success
(returning `True`); a `psycopg2.Error` on connect is caught, logged and
yields `False`. -/
def check_rds_login (fenv : FaultEnv) (db_host : String) (db_port : Nat)
    (db_name db_user : String) (db_password : SStr) : List Event × Bool :=
  if fenv.checkConnectOk db_host then
    ([Event.connect db_host true, Event.closeConn db_host], true)
  else
    ([Event.connect db_host false], false)

/-- `create_or_update_user`: returns the event trace, the server's role
list afterwards, and the `user_created_or_updated` flag.  Mirrors the
source's single `try`/`except psycopg2.Error` with no `finally`: any
SQL error is caught, logged, and the current flag value is returned
without `conn.close()`; the `return` inside the "already exists, no
force" branch likewise skips the close.  `cur.close()`/`conn.close()`
run only after a successful `GRANT`. -/
def create_or_update_user (fenv : FaultEnv) (force : Bool) (db_host : String)
    (db_port : Nat) (db_name db_user : String) (db_password : SStr)
    (new_user new_password : String) (roles : List String) :
    List Event × List String × Bool :=
  if fenv.mutConnectOk db_host then
    let ev1 := [Event.connect db_host true, Event.sqlExistsQuery new_user]
    if fenv.existsQueryOk db_host then
      if user_exists roles new_user then
        if !force then
          (ev1, roles, false)
        else
          let ev2 := ev1 ++ [Event.sqlAlterUser new_user]
          if fenv.alterOk db_host then
            let ev3 := ev2 ++ [Event.sqlGrant db_name new_user]
            if fenv.grantOk db_host then
              (ev3 ++ [Event.closeConn db_host], roles, true)
            else
              (ev3, roles, true)
          else
            (ev2, roles, false)
      else
        let ev2 := ev1 ++ [Event.sqlCreateUser new_user]
        if fenv.createOk db_host then
          let roles' := new_user :: roles
          let ev3 := ev2 ++ [Event.sqlGrant db_name new_user]
          if fenv.grantOk db_host then
            (ev3 ++ [Event.closeConn db_host], roles', true)
          else
            (ev3, roles', true)
        else
          (ev2, roles, false)
    else
      (ev1, roles, false)
  else
    ([Event.connect db_host false], roles, false)

/-- `store_password_in_secrets_manager`: `get_secret_value` (treating
`ResourceNotFoundException` as an empty dict, any other `ClientError`
as log-and-return), `json.loads` (raising, uncaught, on a value that is
not valid JSON), `d[key] = password`, then `update_secret`, falling
back to `create_secret` on `ResourceNotFoundException` (here: exactly
when the name is absent). -/
def store_password_in_secrets_manager (fenv : FaultEnv)
    (secrets : List (String × SStr)) (secret_name key password : String) :
    List Event × Except PyErr (List (String × SStr)) :=
  let ev0 := [Event.secretGet secret_name]
  if fenv.svcGetFail secret_name then
    (ev0, .ok secrets)
  else
    match alookup secrets secret_name with
    | some (SStr.plain _) => (ev0, .error PyErr.jsonDecodeError)
    | some (SStr.json m) =>
      if fenv.svcUpdateFail secret_name then
        (ev0 ++ [Event.secretUpdate secret_name], .ok secrets)
      else
        (ev0 ++ [Event.secretUpdate secret_name],
          .ok (setKey secrets secret_name (SStr.json (setKey m key password))))
    | none =>
      (ev0 ++ [Event.secretUpdate secret_name, Event.secretCreate secret_name],
        .ok (setKey secrets secret_name (SStr.json (setKey [] key password))))

/-- The read-replica filter: the
`"ReadReplicaSourceDBInstanceIdentifier" in instance and instance[...]`
check (key present with a truthy, i.e. non-empty, value). -/
def isReplica (inst : Instance) : Bool :=
  match inst.replicaSource with
  | some s => s != ""
  | none => false

/-- The engine allow-list membership test
`db_engine in ["postgres", "aurora-postgresql"]`. -/
def engineAllowed (engine : String) : Bool :=
  ["postgres", "aurora-postgresql"].contains engine

/-- The service-secret name
`f"{env_name}/{service_name}{secret_name_suffix}"` with the
`-service` suffix exactly when the service name does not start with
`core` case-insensitively. -/
def service_secret_name (env_name service_name : String) : String :=
  env_name ++ "/" ++ service_name ++
    (if pyStartsWith (pyLower service_name) "core" then "" else "-service")

/-- The admin-secret name `f"{env_name}-{service_name}-db-admin-Password"`. -/
def admin_secret_name_of (env_name service_name : String) : String :=
  env_name ++ "-" ++ service_name ++ "-db-admin-Password"

/-- The body of the `for instance in rds_instances["DBInstances"]` loop
for one instance: replica filter, engine filter, env/service derivation
(raising `indexError` on a malformed identifier), admin-password fetch,
then either the `-check` connectivity check or the
connect/create-or-update/store sequence. -/
def process_instance (fenv : FaultEnv) (check force : Bool) (w : World)
    (inst : Instance) : List Event × Except PyErr World :=
  if isReplica inst then ([], .ok w)
  else if engineAllowed inst.engine then
    match pySplit inst.identifier '-' with
    | env_name :: service_name :: _ =>
      let secret_name := service_secret_name env_name service_name
      let admin_secret_name := admin_secret_name_of env_name service_name
      let (ev1, adminPw) := get_admin_password fenv w.secrets admin_secret_name
      match adminPw with
      | some pw =>
        if pw.truthy then
          if check then
            let (ev2, _) :=
              check_rds_login fenv inst.host inst.port inst.dbName DB_ADMIN_USER pw
            (ev1 ++ ev2, .ok w)
          else
            let (ev2, ok) :=
              check_rds_login fenv inst.host inst.port inst.dbName DB_ADMIN_USER pw
            if ok then
              let new_user := "service." ++ service_name
              let new_password :=
                generate_random_password (fenv.choice inst.identifier)
                  defaultPasswordLength
              let (ev3, roles', flag) :=
                create_or_update_user fenv force inst.host inst.port inst.dbName
                  DB_ADMIN_USER pw new_user new_password (w.dbRoles inst.host)
              let w' : World :=
                { dbRoles := fun h => if h = inst.host then roles' else w.dbRoles h
                  secrets := w.secrets }
              if flag then
                let (ev4, res) :=
                  store_password_in_secrets_manager fenv w'.secrets secret_name
                    "DB_PASSWORD" new_password
                match res with
                | .ok secrets' =>
                  (ev1 ++ ev2 ++ ev3 ++ ev4,
                    .ok { dbRoles := w'.dbRoles, secrets := secrets' })
                | .error e => (ev1 ++ ev2 ++ ev3 ++ ev4, .error e)
              else
                (ev1 ++ ev2 ++ ev3, .ok w')
            else
              (ev1 ++ ev2, .ok w)
        else
          (ev1, .ok w)
      | none => (ev1, .ok w)
    | _ => ([], .error PyErr.indexError)
  else ([], .ok w)

/-- The whole module-level loop over `rds_instances["DBInstances"]`:
instances are processed in order; an uncaught exception from one
instance's body terminates the run (there is no try/except around the
loop body), discarding the remaining instances. -/
def runAll (fenv : FaultEnv) (check force : Bool) :
    World → List Instance → List Event × Except PyErr World
  | w, [] => ([], .ok w)
  | w, inst :: rest =>
    let (evs, res) := process_instance fenv check force w inst
    match res with
    | .ok w' =>
      let (evs', res') := runAll fenv check force w' rest
      (evs ++ evs', res')
    | .error e => (evs, .error e)

/-! ### Event predicates used to state trace properties -/

/-- Secrets Manager calls of any kind. -/
def isSecretEvent : Event → Bool
  | .secretGet _ => true
  | .secretUpdate _ => true
  | .secretCreate _ => true
  | _ => false

/-- Secret Store writes (`update_secret` / `create_secret`). -/
def secretWriteEvent : Event → Bool
  | .secretUpdate _ => true
  | .secretCreate _ => true
  | _ => false

/-- Any SQL statement against the role catalog or the roles themselves,
or any Secret Store write: everything beyond a connectivity check. -/
def roleSqlOrSecretWriteEvent : Event → Bool
  | .sqlExistsQuery _ => true
  | .sqlCreateUser _ => true
  | .sqlAlterUser _ => true
  | .sqlGrant _ _ => true
  | .secretUpdate _ => true
  | .secretCreate _ => true
  | _ => false

/-- `CREATE USER` / `ALTER USER` statements and Secret Store writes. -/
def roleChangeOrWriteEvent : Event → Bool
  | .sqlCreateUser _ => true
  | .sqlAlterUser _ => true
  | .sqlGrant _ _ => true
  | .secretUpdate _ => true
  | .secretCreate _ => true
  | _ => false

/-- A successfully opened database connection. -/
def isOpenEvent : Event → Bool
  | .connect _ true => true
  | _ => false

/-- An explicit `conn.close()`. -/
def isCloseEvent : Event → Bool
  | .closeConn _ => true
  | _ => false

/-! ### Concrete fixtures (used by witnesses and counterexamples) -/

/-- All collaborator calls succeed; the random oracle always picks
index 0. -/
def fenvOk : FaultEnv :=
  { checkConnectOk := fun _ => true, mutConnectOk := fun _ => true
    existsQueryOk := fun _ => true, createOk := fun _ => true
    alterOk := fun _ => true, grantOk := fun _ => true
    adminGetFail := fun _ => false, svcGetFail := fun _ => false
    svcUpdateFail := fun _ => false, choice := fun _ _ => 0 }

/-- Like `fenvOk` but every `GRANT` statement raises. -/
def fenvGrantFail : FaultEnv := { fenvOk with grantOk := fun _ => false }

/-- The spec's scenario instance `prod-billing-1`. -/
def instBilling : Instance :=
  { identifier := "prod-billing-1", engine := "postgres", dbName := "billingdb"
    host := "h1", port := 5432, replicaSource := none }

/-- The spec's scenario instance `prod-core-2` (service name `core`). -/
def instCore : Instance :=
  { identifier := "prod-core-2", engine := "postgres", dbName := "coredb"
    host := "h3", port := 5432, replicaSource := none }

/-- A malformed identifier: no `-`, so env/service derivation faults. -/
def instBad : Instance :=
  { identifier := "prodcore", engine := "postgres", dbName := "baddb"
    host := "h2", port := 5432, replicaSource := none }

/-- A read replica of `prod-billing-1`. -/
def instReplica : Instance :=
  { identifier := "prod-billing-1-rr", engine := "postgres", dbName := "billingdb"
    host := "h4", port := 5432, replicaSource := some "prod-billing-1" }

/-- Initial world: no roles anywhere; admin secrets for the billing and
core instances. -/
def w0 : World :=
  { dbRoles := fun _ => []
    secrets := [("prod-billing-db-admin-Password", SStr.plain "s3cr3t"),
                ("prod-core-db-admin-Password", SStr.plain "adm1n")] }

/-- Like `w0` but the billing service role already exists on every
server. -/
def wExists : World := { w0 with dbRoles := fun _ => ["service.billing"] }

/-- Like `w0` but the billing service secret holds a value that is not
valid JSON. -/
def wBadJson : World :=
  { w0 with secrets := w0.secrets ++ [("prod/billing-service", SStr.plain "oops")] }

/-! ### Helper lemmas -/

lemma alookup_setKey_self {β : Type} (l : List (String × β)) (k : String) (v : β) :
    alookup (setKey l k v) k = some v := by
  induction l with
  | nil => simp [setKey, alookup]
  | cons p rest ih =>
    obtain ⟨k', v'⟩ := p
    by_cases h : k' = k <;> simp [setKey, alookup, h, ih]

lemma alookup_setKey_other {β : Type} (l : List (String × β)) (k k' : String)
    (v : β) (h : k' ≠ k) : alookup (setKey l k v) k' = alookup l k' := by
  induction l with
  | nil => simp [setKey, alookup, Ne.symm h]
  | cons p rest ih =>
    obtain ⟨ka, va⟩ := p
    by_cases hk : ka = k
    · subst hk
      simp [setKey, alookup, Ne.symm h]
    · simp [setKey, alookup, hk, ih]

/-- `create_or_update_user` performs no Secrets Manager call at all:
its trace holds only connection and SQL events. -/
lemma create_or_update_user_no_secret_events (fenv : FaultEnv) (force : Bool)
    (db_host : String) (db_port : Nat) (db_name db_user : String)
    (db_password : SStr) (new_user new_password : String) (roles : List String) :
    ∀ e ∈ (create_or_update_user fenv force db_host db_port db_name db_user
      db_password new_user new_password roles).1, isSecretEvent e = false := by
  intro e he
  unfold create_or_update_user at he
  split_ifs at he <;> simp at he <;>
    rcases he with rfl | rfl | rfl | rfl | rfl | rfl <;> rfl

/-- Every Secrets Manager event that `store_password_in_secrets_manager`
emits names exactly the secret it was asked to write. -/
lemma store_events_named (fenv : FaultEnv) (secrets : List (String × SStr))
    (secret_name key password : String) :
    ∀ e ∈ (store_password_in_secrets_manager fenv secrets secret_name key
      password).1,
      e = Event.secretGet secret_name ∨ e = Event.secretUpdate secret_name ∨
        e = Event.secretCreate secret_name := by
  intro e he
  unfold store_password_in_secrets_manager at he
  by_cases hg : fenv.svcGetFail secret_name
  · simp [hg] at he
    subst he; simp
  · rcases hl : alookup secrets secret_name with _ | v
    · simp [hg, hl] at he
      rcases he with rfl | rfl | rfl <;> simp
    · rcases v with m | s
      · by_cases hu : fenv.svcUpdateFail secret_name <;>
          simp [hg, hl, hu] at he <;> rcases he with rfl | rfl <;> simp
      · simp [hg, hl] at he
        subst he; simp

/-- An environment in which every admin-secret retrieval raises a
non-not-found `ClientError`. -/
def fenvAdminFail : FaultEnv := { fenvOk with adminGetFail := fun _ => true }

/-! ### Claims -/

/-- C8: every password produced by `generate_random_password` has
exactly the requested length (default 12) and draws every character
from `password_characters = {A-Z, a-z, 0-9}`, whatever the random
choices were. -/
theorem C8_password_length_and_alphabet (choice : Nat → Nat) (length : Nat) :
    (generate_random_password choice length).length = length ∧
    ∀ c ∈ (generate_random_password choice length).toList,
      c ∈ password_characters := by
  constructor
  · show ((List.range length).map _).length = length
    simp
  · intro c hc
    have hc' : c ∈ (List.range length).map (fun i =>
        password_characters.getD (choice i % password_characters.length) 'a') := hc
    simp only [List.mem_map] at hc'
    obtain ⟨i, _, rfl⟩ := hc'
    have hlen : 0 < password_characters.length := by decide
    have hlt : choice i % password_characters.length <
        password_characters.length := Nat.mod_lt _ hlen
    rw [List.getD_eq_getElem?_getD, List.getElem?_eq_getElem hlt]
    simp only [Option.getD_some]
    exact List.getElem_mem hlt

/-- C8 witness: a concrete random source, at the default length. -/
theorem C8_password_length_and_alphabet_witness :
    (generate_random_password (fun _ => 7) 12).length = 12 ∧
    ∀ c ∈ (generate_random_password (fun _ => 7) 12).toList,
      c ∈ password_characters :=
  C8_password_length_and_alphabet (fun _ => 7) 12

/-- C5: an instance with a non-empty replica-source identifier, or with
an engine outside `{postgres, aurora-postgresql}`, is processed with an
empty trace (in particular no connection attempt and no secret lookup)
and an unchanged world. -/
theorem C5_replica_or_foreign_engine_untouched (fenv : FaultEnv)
    (check force : Bool) (w : World) (inst : Instance)
    (h : isReplica inst = true ∨ engineAllowed inst.engine = false) :
    process_instance fenv check force w inst = ([], Except.ok w) := by
  unfold process_instance
  rcases h with h | h
  · simp [h]
  · by_cases hr : isReplica inst
    · simp [hr]
    · simp [hr, h]

/-- C5 witness: the read replica of `prod-billing-1` produces no events
at all. -/
theorem C5_replica_or_foreign_engine_untouched_witness :
    isReplica instReplica = true ∧
    process_instance fenvOk false false w0 instReplica = ([], Except.ok w0) :=
  ⟨by decide,
    C5_replica_or_foreign_engine_untouched fenvOk false false w0 instReplica
      (Or.inl (by decide))⟩

/-- C2 counterexample: on the malformed identifier `prodcore` the run
does not log-and-skip; it terminates with an uncaught `IndexError`
before emitting a single event, and the following well-formed instance
is never processed. -/
theorem C2_counterexample_malformed_id_aborts :
    runAll fenvOk false false w0 [instBad, instBilling] =
      ([], Except.error PyErr.indexError) := rfl

/-- C2 amended: a malformed identifier (fewer than two `-`-separated
components) aborts the whole run with an uncaught `IndexError`; by
contrast a failure the code catches — here an admin-secret retrieval
`ClientError` — only skips the instance and the run continues with the
remaining instances. -/
theorem C2_amended_abort_vs_skip (fenv : FaultEnv) (check force : Bool)
    (w : World) (inst : Instance) (rest : List Instance)
    (h1 : isReplica inst = false) (h2 : engineAllowed inst.engine = true) :
    ((pySplit inst.identifier '-').length < 2 →
      runAll fenv check force w (inst :: rest) =
        ([], Except.error PyErr.indexError)) ∧
    (∀ env_name service_name tl,
      pySplit inst.identifier '-' = env_name :: service_name :: tl →
      fenv.adminGetFail (admin_secret_name_of env_name service_name) = true →
      runAll fenv check force w (inst :: rest) =
        (Event.secretGet (admin_secret_name_of env_name service_name) ::
          (runAll fenv check force w rest).1,
          (runAll fenv check force w rest).2)) := by
  constructor
  · intro h3
    have hp : process_instance fenv check force w inst =
        ([], Except.error PyErr.indexError) := by
      unfold process_instance
      simp only [h1, h2, Bool.false_eq_true, if_false, if_true]
      rcases hs : pySplit inst.identifier '-' with _ | ⟨a, tl⟩
      · rfl
      · rcases tl with _ | ⟨b, tl2⟩
        · rfl
        · rw [hs] at h3
          exact absurd h3 (by simp)
    simp [runAll, hp]
  · intro env_name service_name tl hsplit hfail
    have hp : process_instance fenv check force w inst =
        ([Event.secretGet (admin_secret_name_of env_name service_name)],
          Except.ok w) := by
      unfold process_instance
      simp only [h1, h2, Bool.false_eq_true, if_false, if_true, hsplit]
      simp [get_admin_password, hfail]
    rcases hr : runAll fenv check force w rest with ⟨evs', res'⟩
    simp [runAll, hp, hr]

/-- C2 amended witness: `prodcore` aborts the run; an injected
admin-secret retrieval failure on `prod-billing-1` merely skips it. -/
theorem C2_amended_abort_vs_skip_witness :
    runAll fenvOk false false w0 [instBad] =
      ([], Except.error PyErr.indexError) ∧
    runAll fenvAdminFail false false w0 [instBilling] =
      ([Event.secretGet "prod-billing-db-admin-Password"], Except.ok w0) :=
  ⟨(C2_amended_abort_vs_skip fenvOk false false w0 instBad []
      (by decide) (by decide)).1 (by decide),
    (C2_amended_abort_vs_skip fenvAdminFail false false w0 instBilling []
      (by decide) (by decide)).2 "prod" "billing" ["1"] (by decide) rfl⟩

/-- C10: a stored service-secret value that is not valid JSON makes
`store_password_in_secrets_manager` raise an uncaught decode error
(instead of logging and returning), and any uncaught per-instance error
terminates the whole run, discarding the remaining instances. -/
theorem C10_invalid_json_uncaught_abort :
    (∀ (fenv : FaultEnv) (secrets : List (String × SStr)) (name key pw s : String),
      fenv.svcGetFail name = false →
      alookup secrets name = some (SStr.plain s) →
      store_password_in_secrets_manager fenv secrets name key pw =
        ([Event.secretGet name], Except.error PyErr.jsonDecodeError)) ∧
    (∀ (fenv : FaultEnv) (check force : Bool) (w : World) (inst : Instance)
      (rest : List Instance) (evs : List Event) (e : PyErr),
      process_instance fenv check force w inst = (evs, Except.error e) →
      runAll fenv check force w (inst :: rest) = (evs, Except.error e)) := by
  constructor
  · intro fenv secrets name key pw s hg hl
    unfold store_password_in_secrets_manager
    simp [hg, hl]
  · intro fenv check force w inst rest evs e hp
    simp [runAll, hp]

/-- C10 witness: a non-JSON stored value under the billing service
secret raises the decode error. -/
theorem C10_invalid_json_uncaught_abort_witness :
    store_password_in_secrets_manager fenvOk
      [("prod/billing-service", SStr.plain "oops")] "prod/billing-service"
      "DB_PASSWORD" "p" =
      ([Event.secretGet "prod/billing-service"],
        Except.error PyErr.jsonDecodeError) :=
  C10_invalid_json_uncaught_abort.1 fenvOk
    [("prod/billing-service", SStr.plain "oops")] "prod/billing-service"
    "DB_PASSWORD" "p" "oops" rfl rfl

/-- C9 counterexample: with the billing role already present and no
force flag, and every collaborator call succeeding, the instance's
trace opens two connections but closes only one — the early return in
`create_or_update_user` leaks its connection, so closure is not
guaranteed on every path. -/
theorem C9_counterexample_connection_leak :
    ((process_instance fenvOk false false wExists instBilling).1.countP
      (fun e => isOpenEvent e) = 2) ∧
    ((process_instance fenvOk false false wExists instBilling).1.countP
      (fun e => isCloseEvent e) = 1) := by decide

/-- C9 amended: the connectivity check always closes what it opens, but
the mutation procedure closes its connection only when the connect, the
existence query, the branch statement (`ALTER` — which requires the
force flag — or `CREATE`) and the `GRANT` all succeed; on the
exists-without-force early return and on every caught SQL error the
connection is left open. -/
theorem C9_amended_close_only_on_full_success (fenv : FaultEnv) (force : Bool)
    (db_host : String) (db_port : Nat) (db_name db_user : String)
    (db_password : SStr) (new_user new_password : String)
    (roles : List String) :
    ((check_rds_login fenv db_host db_port db_name db_user db_password).1.countP
        (fun e => isCloseEvent e) =
      (check_rds_login fenv db_host db_port db_name db_user db_password).1.countP
        (fun e => isOpenEvent e)) ∧
    ((create_or_update_user fenv force db_host db_port db_name db_user
        db_password new_user new_password roles).1.countP
        (fun e => isCloseEvent e) =
      if fenv.mutConnectOk db_host && fenv.existsQueryOk db_host &&
          (if user_exists roles new_user then force && fenv.alterOk db_host
            else fenv.createOk db_host) && fenv.grantOk db_host
        then 1 else 0) := by
  constructor
  · unfold check_rds_login
    by_cases h : fenv.checkConnectOk db_host <;>
      simp [h, isOpenEvent, isCloseEvent]
  · unfold create_or_update_user
    by_cases h1 : fenv.mutConnectOk db_host
    · by_cases h2 : fenv.existsQueryOk db_host
      · by_cases h3 : user_exists roles new_user
        · by_cases h4 : force
          · by_cases h5 : fenv.alterOk db_host
            · by_cases h6 : fenv.grantOk db_host <;>
                simp [h1, h2, h3, h4, h5, h6, isCloseEvent]
            · simp [h1, h2, h3, h4, h5, isCloseEvent]
          · simp [h1, h2, h3, h4, isCloseEvent]
        · by_cases h5 : fenv.createOk db_host
          · by_cases h6 : fenv.grantOk db_host <;>
              simp [h1, h2, h3, h5, h6, isCloseEvent]
          · simp [h1, h2, h3, h5, isCloseEvent]
      · simp [h1, h2, isCloseEvent]
    · simp [h1, isCloseEvent]

/-- If the existence query fails, or both the `CREATE` and the `ALTER`
statements fail, `user_created_or_updated` stays `False`. -/
lemma create_or_update_user_flag_false (fenv : FaultEnv) (force : Bool)
    (db_host : String) (db_port : Nat) (db_name db_user : String)
    (db_password : SStr) (new_user new_password : String) (roles : List String)
    (h : fenv.existsQueryOk db_host = false ∨
      (fenv.createOk db_host = false ∧ fenv.alterOk db_host = false)) :
    (create_or_update_user fenv force db_host db_port db_name db_user
      db_password new_user new_password roles).2.2 = false := by
  unfold create_or_update_user
  rcases h with h | ⟨hc, ha⟩
  · by_cases h1 : fenv.mutConnectOk db_host <;> simp [h1, h]
  · by_cases h1 : fenv.mutConnectOk db_host
    · by_cases h2 : fenv.existsQueryOk db_host
      · by_cases h3 : user_exists roles new_user
        · by_cases h4 : force <;> simp [h1, h2, h3, h4, ha]
        · simp [h1, h2, h3, hc]
      · simp [h1, h2]
    · simp [h1]

/-- `create_or_update_user` never emits a Secret Store write. -/
lemma create_or_update_user_no_writes (fenv : FaultEnv) (force : Bool)
    (db_host : String) (db_port : Nat) (db_name db_user : String)
    (db_password : SStr) (new_user new_password : String)
    (roles : List String) :
    ((create_or_update_user fenv force db_host db_port db_name db_user
      db_password new_user new_password roles).1.all
      (fun e => !(secretWriteEvent e))) = true := by
  rw [List.all_eq_true]
  intro e he
  have hs := create_or_update_user_no_secret_events fenv force db_host db_port
    db_name db_user db_password new_user new_password roles e he
  cases e <;> simp_all [isSecretEvent, secretWriteEvent]

/-- When `user_created_or_updated` comes back `False` for every possible
mutation call on this instance's server, the instance's processing
performs no Secret Store write and leaves the store unchanged. -/
lemma process_instance_no_write_of_flag_false (fenv : FaultEnv)
    (check force : Bool) (w : World) (inst : Instance)
    (hflag : ∀ pw new_user new_password roles,
      (create_or_update_user fenv force inst.host inst.port inst.dbName
        DB_ADMIN_USER pw new_user new_password roles).2.2 = false) :
    ((process_instance fenv check force w inst).1.all
      (fun e => !(secretWriteEvent e))) = true ∧
    ∀ w', (process_instance fenv check force w inst).2 = Except.ok w' →
      w'.secrets = w.secrets := by
  unfold process_instance
  by_cases hrep : isReplica inst
  · simp [hrep]
  · by_cases heng : engineAllowed inst.engine
    · rcases hs : pySplit inst.identifier '-' with _ | ⟨env1, tl⟩
      · simp [hrep, heng, hs]
      · rcases tl with _ | ⟨svc, tl2⟩
        · simp [hrep, heng, hs]
        · simp only [hrep, heng, hs, Bool.false_eq_true, if_false, if_true,
            get_admin_password]
          rcases hpw : (if fenv.adminGetFail (admin_secret_name_of env1 svc) =
              true then none else alookup w.secrets
              (admin_secret_name_of env1 svc)) with _ | pw
          · simp [secretWriteEvent]
          · by_cases ht : pw.truthy
            · by_cases hc : check
              · by_cases hcc : fenv.checkConnectOk inst.host <;>
                  simp [ht, hc, check_rds_login, hcc, secretWriteEvent]
              · by_cases hcc : fenv.checkConnectOk inst.host
                · simp only [ht, hc, check_rds_login, hcc, if_true,
                    Bool.false_eq_true, if_false]
                  rw [hflag]
                  simp only [Bool.false_eq_true, if_false]
                  constructor
                  · rw [List.all_eq_true]
                    intro e he
                    simp only [List.mem_append, List.mem_cons,
                      List.not_mem_nil, or_false] at he
                    rcases he with (rfl | rfl | rfl) | he
                    · rfl
                    · rfl
                    · rfl
                    · have hz := create_or_update_user_no_secret_events fenv
                        force inst.host inst.port inst.dbName DB_ADMIN_USER pw
                        ("service." ++ svc)
                        (generate_random_password (fenv.choice inst.identifier)
                          defaultPasswordLength) (w.dbRoles inst.host) e he
                      cases e <;> simp_all [isSecretEvent, secretWriteEvent]
                  · intro w' hw
                    injection hw with h
                    rw [← h]
                · simp [ht, hc, check_rds_login, hcc, secretWriteEvent]
            · simp [ht, secretWriteEvent]
    · simp [hrep, heng]

/-- C1 counterexample: when only the `GRANT` statement fails (after a
successful `CREATE`), `create_or_update_user` still reports the user as
created and the driver does attempt the Secret Store write for that
instance, contradicting the claim that any SQL failure suppresses
step 8. -/
theorem C1_counterexample_grant_failure_still_writes :
    fenvGrantFail.grantOk "h1" = false ∧
    (create_or_update_user fenvGrantFail false "h1" 5432 "billingdb"
      DB_ADMIN_USER (SStr.plain "s3cr3t") "service.billing" "pw0" []).2.2 =
      true ∧
    Event.secretUpdate "prod/billing-service" ∈
      (process_instance fenvGrantFail false false w0 instBilling).1 := by
  decide

/-- C1 amended: a failure of the existence check, of `CREATE`, or of
`ALTER` leaves `user_created_or_updated` false and the Secret Store
write is then not attempted (store unchanged, no write event); only a
`GRANT` failure after a successful `CREATE`/`ALTER` escapes this
guarantee. -/
theorem C1_amended_sql_failure_before_grant_blocks_write (fenv : FaultEnv)
    (check force : Bool) (w : World) (inst : Instance)
    (h : fenv.existsQueryOk inst.host = false ∨
      (fenv.createOk inst.host = false ∧ fenv.alterOk inst.host = false)) :
    ((process_instance fenv check force w inst).1.all
      (fun e => !(secretWriteEvent e))) = true ∧
    ∀ w', (process_instance fenv check force w inst).2 = Except.ok w' →
      w'.secrets = w.secrets :=
  process_instance_no_write_of_flag_false fenv check force w inst
    (fun pw new_user new_password roles =>
      create_or_update_user_flag_false fenv force inst.host inst.port
        inst.dbName DB_ADMIN_USER pw new_user new_password roles h)

/-- C1 amended witness: with a failing existence query on `prod-billing-1`
the instance's trace carries no Secret Store write. -/
theorem C1_amended_sql_failure_before_grant_blocks_write_witness :
    ((process_instance { fenvOk with existsQueryOk := fun _ => false } false
      false w0 instBilling).1.all (fun e => !(secretWriteEvent e))) = true :=
  (C1_amended_sql_failure_before_grant_blocks_write
    { fenvOk with existsQueryOk := fun _ => false } false false w0 instBilling
    (Or.inl rfl)).1

/-- With the check flag set, one instance's processing emits at most the
admin-secret lookup and a connect/close pair — no SQL statement beyond
the connection, no Secret Store write — and returns the world
unchanged, unless the identifier is malformed, in which case it emits
nothing and raises. -/
lemma process_instance_check_shape (fenv : FaultEnv) (force : Bool) (w : World)
    (inst : Instance) :
    (((process_instance fenv true force w inst).1.all
        (fun e => !(roleSqlOrSecretWriteEvent e))) = true ∧
      (process_instance fenv true force w inst).2 = Except.ok w) ∨
    process_instance fenv true force w inst =
      ([], Except.error PyErr.indexError) := by
  unfold process_instance
  by_cases hrep : isReplica inst
  · left; simp [hrep]
  · by_cases heng : engineAllowed inst.engine
    · rcases hs : pySplit inst.identifier '-' with _ | ⟨env1, tl⟩
      · right; simp [hrep, heng, hs]
      · rcases tl with _ | ⟨svc, tl2⟩
        · right; simp [hrep, heng, hs]
        · simp only [hrep, heng, hs, Bool.false_eq_true, if_false, if_true,
            get_admin_password]
          rcases hpw : (if fenv.adminGetFail (admin_secret_name_of env1 svc) =
              true then none else alookup w.secrets
              (admin_secret_name_of env1 svc)) with _ | pw
          · left; simp [roleSqlOrSecretWriteEvent]
          · by_cases ht : pw.truthy
            · by_cases hcc : fenv.checkConnectOk inst.host <;>
                (left; simp [ht, check_rds_login, hcc, roleSqlOrSecretWriteEvent])
            · left; simp [ht, roleSqlOrSecretWriteEvent]
    · left; simp [hrep, heng]

/-- C3: a run invoked with the check flag never executes any SQL beyond
the connection attempt (no existence query, `CREATE`, `ALTER` or
`GRANT`) and never writes to the Secret Store, over the entire instance
list; the world comes back unchanged unless a malformed identifier
aborted the run. -/
theorem C3_check_never_mutates (fenv : FaultEnv) (force : Bool) (w : World)
    (insts : List Instance) :
    ((runAll fenv true force w insts).1.all
      (fun e => !(roleSqlOrSecretWriteEvent e))) = true ∧
    ((runAll fenv true force w insts).2 = Except.ok w ∨
      (runAll fenv true force w insts).2 = Except.error PyErr.indexError) := by
  induction insts generalizing w with
  | nil => simp [runAll]
  | cons inst rest ih =>
    have hshape := process_instance_check_shape fenv force w inst
    rcases hp : process_instance fenv true force w inst with ⟨evs, res⟩
    rw [hp] at hshape
    rcases hshape with ⟨hall, hres⟩ | heq
    · simp only at hres
      subst hres
      obtain ⟨ih1, ih2⟩ := ih w
      rcases hr : runAll fenv true force w rest with ⟨evs', res'⟩
      rw [hr] at ih1 ih2
      constructor
      · simp only at hall
        simp [runAll, hp, hr, List.all_append, hall, ih1]
      · simpa [runAll, hp, hr] using ih2
    · rw [Prod.mk.injEq] at heq
      obtain ⟨h1, h2⟩ := heq
      subst h1
      subst h2
      simp [runAll, hp]

/-- Without the force flag, on a server where the target role already
exists, `create_or_update_user` runs no `CREATE`/`ALTER`/`GRANT` and
reports no change. -/
lemma create_or_update_user_existing_no_force (fenv : FaultEnv)
    (db_host : String) (db_port : Nat) (db_name db_user : String)
    (db_password : SStr) (new_user new_password : String)
    (roles : List String) (hrole : user_exists roles new_user = true) :
    ((create_or_update_user fenv false db_host db_port db_name db_user
        db_password new_user new_password roles).1.all
      (fun e => !(roleChangeOrWriteEvent e))) = true ∧
    (create_or_update_user fenv false db_host db_port db_name db_user
      db_password new_user new_password roles).2.2 = false := by
  unfold create_or_update_user
  by_cases h1 : fenv.mutConnectOk db_host
  · by_cases h2 : fenv.existsQueryOk db_host <;>
      simp [h1, h2, hrole, roleChangeOrWriteEvent]
  · simp [h1, roleChangeOrWriteEvent]

/-- C6: for an instance whose service role `service.<service>` already
exists on its server, a run without the force flag performs no role
creation or alteration, no grant and no Secret Store write for that
instance, and leaves the store unchanged — so the second of two
successive runs is a no-op for roles the first run created. -/
theorem C6_existing_role_without_force_noop (fenv : FaultEnv) (check : Bool)
    (w : World) (inst : Instance) (env_name service_name : String)
    (tl : List String)
    (hsplit : pySplit inst.identifier '-' = env_name :: service_name :: tl)
    (hrole : user_exists (w.dbRoles inst.host)
      ("service." ++ service_name) = true) :
    ((process_instance fenv check false w inst).1.all
      (fun e => !(roleChangeOrWriteEvent e))) = true ∧
    ∀ w', (process_instance fenv check false w inst).2 = Except.ok w' →
      w'.secrets = w.secrets := by
  unfold process_instance
  by_cases hrep : isReplica inst
  · simp [hrep]
  · by_cases heng : engineAllowed inst.engine
    · simp only [hrep, heng, hsplit, Bool.false_eq_true, if_false, if_true,
        get_admin_password]
      rcases hpw : (if fenv.adminGetFail
          (admin_secret_name_of env_name service_name) = true then none
          else alookup w.secrets
            (admin_secret_name_of env_name service_name)) with _ | pw
      · simp [roleChangeOrWriteEvent]
      · by_cases ht : pw.truthy
        · by_cases hc : check
          · by_cases hcc : fenv.checkConnectOk inst.host <;>
              simp [ht, hc, check_rds_login, hcc, roleChangeOrWriteEvent]
          · by_cases hcc : fenv.checkConnectOk inst.host
            · simp only [ht, hc, check_rds_login, hcc, if_true,
                Bool.false_eq_true, if_false]
              obtain ⟨hev3, hflag⟩ := create_or_update_user_existing_no_force
                fenv inst.host inst.port inst.dbName DB_ADMIN_USER pw
                ("service." ++ service_name)
                (generate_random_password (fenv.choice inst.identifier)
                  defaultPasswordLength) (w.dbRoles inst.host) hrole
              rw [hflag]
              simp only [Bool.false_eq_true, if_false]
              constructor
              · rw [List.all_eq_true]
                intro e he
                simp only [List.mem_append, List.mem_cons,
                  List.not_mem_nil, or_false] at he
                rcases he with (rfl | rfl | rfl) | he
                · rfl
                · rfl
                · rfl
                · exact List.all_eq_true.mp hev3 e he
              · intro w' hw
                injection hw with h
                rw [← h]
            · simp [ht, hc, check_rds_login, hcc, roleChangeOrWriteEvent]
        · simp [ht, roleChangeOrWriteEvent]
    · simp [hrep, heng]

/-- C6 witness: `prod-billing-1` with `service.billing` already present
and no force flag produces no role change and no write. -/
theorem C6_existing_role_without_force_noop_witness :
    ((process_instance fenvOk false false wExists instBilling).1.all
      (fun e => !(roleChangeOrWriteEvent e))) = true :=
  (C6_existing_role_without_force_noop fenvOk false wExists instBilling
    "prod" "billing" ["1"] (by decide) (by decide)).1

/-- Once the filters pass and env/service are derived, the instance's
trace starts with the admin-secret lookup, and every later event is
either a database event or a Secrets Manager call on exactly the
computed service-secret name. -/
lemma process_instance_trace_shape (fenv : FaultEnv) (check force : Bool)
    (w : World) (inst : Instance) (env_name service_name : String)
    (tl : List String) (h1 : isReplica inst = false)
    (h2 : engineAllowed inst.engine = true)
    (h3 : pySplit inst.identifier '-' = env_name :: service_name :: tl) :
    ∃ rest, (process_instance fenv check force w inst).1 =
      Event.secretGet (admin_secret_name_of env_name service_name) :: rest ∧
      ∀ e ∈ rest, isSecretEvent e = false ∨
        e = Event.secretGet (service_secret_name env_name service_name) ∨
        e = Event.secretUpdate (service_secret_name env_name service_name) ∨
        e = Event.secretCreate (service_secret_name env_name service_name) := by
  unfold process_instance
  simp only [h1, h2, h3, Bool.false_eq_true, if_false, if_true,
    get_admin_password]
  rcases hpw : (if fenv.adminGetFail
      (admin_secret_name_of env_name service_name) = true then none
      else alookup w.secrets
        (admin_secret_name_of env_name service_name)) with _ | pw
  · exact ⟨[], by simp⟩
  · by_cases ht : pw.truthy
    · by_cases hc : check
      · by_cases hcc : fenv.checkConnectOk inst.host
        · refine ⟨[Event.connect inst.host true, Event.closeConn inst.host],
            by simp [ht, hc, check_rds_login, hcc], ?_⟩
          intro e he
          simp only [List.mem_cons, List.not_mem_nil, or_false] at he
          rcases he with rfl | rfl <;> left <;> rfl
        · refine ⟨[Event.connect inst.host false],
            by simp [ht, hc, check_rds_login, hcc], ?_⟩
          intro e he
          simp only [List.mem_cons, List.not_mem_nil, or_false] at he
          rcases he with rfl
          left; rfl
      · by_cases hcc : fenv.checkConnectOk inst.host
        · simp only [ht, hc, check_rds_login, hcc, if_true,
            Bool.false_eq_true, if_false]
          rcases hcr : create_or_update_user fenv force inst.host inst.port
              inst.dbName DB_ADMIN_USER pw ("service." ++ service_name)
              (generate_random_password (fenv.choice inst.identifier)
                defaultPasswordLength) (w.dbRoles inst.host) with
            ⟨ev3, roles', flag⟩
          have hev3 : ∀ e ∈ ev3, isSecretEvent e = false := by
            intro e he
            have := create_or_update_user_no_secret_events fenv force inst.host
              inst.port inst.dbName DB_ADMIN_USER pw ("service." ++ service_name)
              (generate_random_password (fenv.choice inst.identifier)
                defaultPasswordLength) (w.dbRoles inst.host) e
            rw [hcr] at this
            exact this he
          cases flag
          · refine ⟨[Event.connect inst.host true, Event.closeConn inst.host]
              ++ ev3, by simp, ?_⟩
            intro e he
            simp only [List.mem_append, List.mem_cons, List.not_mem_nil,
              or_false] at he
            rcases he with (rfl | rfl) | he
            · left; rfl
            · left; rfl
            · exact Or.inl (hev3 e he)
          · rcases hst : store_password_in_secrets_manager fenv w.secrets
                (service_secret_name env_name service_name) "DB_PASSWORD"
                (generate_random_password (fenv.choice inst.identifier)
                  defaultPasswordLength) with ⟨ev4, res4⟩
            have hev4 : ∀ e ∈ ev4,
                e = Event.secretGet (service_secret_name env_name service_name) ∨
                e = Event.secretUpdate
                  (service_secret_name env_name service_name) ∨
                e = Event.secretCreate
                  (service_secret_name env_name service_name) := by
              intro e he
              have := store_events_named fenv w.secrets
                (service_secret_name env_name service_name) "DB_PASSWORD"
                (generate_random_password (fenv.choice inst.identifier)
                  defaultPasswordLength) e
              rw [hst] at this
              exact this he
            refine ⟨[Event.connect inst.host true, Event.closeConn inst.host]
              ++ ev3 ++ ev4, ?_, ?_⟩
            · rcases res4 with e4 | s4 <;> simp
            · intro e he
              simp only [List.mem_append, List.mem_cons, List.not_mem_nil,
                or_false] at he
              rcases he with ((rfl | rfl) | he) | he
              · left; rfl
              · left; rfl
              · exact Or.inl (hev3 e he)
              · exact Or.inr (hev4 e he)
        · refine ⟨[Event.connect inst.host false],
            by simp [ht, hc, check_rds_login, hcc], ?_⟩
          intro e he
          simp only [List.mem_cons, List.not_mem_nil, or_false] at he
          rcases he with rfl
          left; rfl
    · exact ⟨[], by simp [ht]⟩

/-- C7: for an instance whose identifier yields components `env` and
`service`, the admin secret queried is exactly
`"{env}-{service}-db-admin-Password"` (it is the first event of the
trace), and every Secret Store write of the instance targets exactly
`"{env}/{service}"` when `service` starts with `core` case-insensitively
and `"{env}/{service}-service"` otherwise. -/
theorem C7_admin_and_service_secret_names (fenv : FaultEnv)
    (check force : Bool) (w : World) (inst : Instance)
    (env_name service_name : String) (tl : List String)
    (h1 : isReplica inst = false) (h2 : engineAllowed inst.engine = true)
    (h3 : pySplit inst.identifier '-' = env_name :: service_name :: tl) :
    (process_instance fenv check force w inst).1.head? =
      some (Event.secretGet
        (env_name ++ "-" ++ service_name ++ "-db-admin-Password")) ∧
    (∀ n, Event.secretUpdate n ∈ (process_instance fenv check force w inst).1 →
      n = env_name ++ "/" ++ service_name ++
        (if pyStartsWith (pyLower service_name) "core" then ""
          else "-service")) ∧
    (∀ n, Event.secretCreate n ∈ (process_instance fenv check force w inst).1 →
      n = env_name ++ "/" ++ service_name ++
        (if pyStartsWith (pyLower service_name) "core" then ""
          else "-service")) := by
  obtain ⟨rest, htr, hrest⟩ := process_instance_trace_shape fenv check force w
    inst env_name service_name tl h1 h2 h3
  rw [htr]
  refine ⟨rfl, ?_, ?_⟩
  · intro n hn
    simp only [List.mem_cons] at hn
    rcases hn with hn | hn
    · exact absurd hn (by simp)
    · rcases hrest _ hn with hfalse | hn' | hn' | hn'
      · exact absurd hfalse (by simp [isSecretEvent])
      · exact absurd hn' (by simp)
      · injection hn' with h
      · exact absurd hn' (by simp)
  · intro n hn
    simp only [List.mem_cons] at hn
    rcases hn with hn | hn
    · exact absurd hn (by simp)
    · rcases hrest _ hn with hfalse | hn' | hn' | hn'
      · exact absurd hfalse (by simp [isSecretEvent])
      · exact absurd hn' (by simp)
      · exact absurd hn' (by simp)
      · injection hn' with h

/-- C7 witness: the spec's `prod-core-2` scenario — admin secret
`prod-core-db-admin-Password`, service secret `prod/core` with no
`-service` suffix. -/
theorem C7_admin_and_service_secret_names_witness :
    (process_instance fenvOk false false w0 instCore).1.head? =
      some (Event.secretGet "prod-core-db-admin-Password") ∧
    Event.secretUpdate "prod/core" ∈
      (process_instance fenvOk false false w0 instCore).1 ∧
    "prod/core" = "prod" ++ "/" ++ "core" ++
      (if pyStartsWith (pyLower "core") "core" then "" else "-service") :=
  ⟨(C7_admin_and_service_secret_names fenvOk false false w0 instCore "prod"
      "core" ["2"] (by decide) (by decide) (by decide)).1,
    by decide,
    (C7_admin_and_service_secret_names fenvOk false false w0 instCore "prod"
      "core" ["2"] (by decide) (by decide) (by decide)).2.1 "prod/core"
      (by decide)⟩

/-- C4: a successful Secret Store write is read-merge-write.  When the
secret already holds a JSON object `m`, the stored value afterwards is
`m` with exactly the given key set to the new password: that key maps to
the password and every other key keeps its previous value.  When the
secret does not exist, the stored value is the singleton object and the
secret is created (a `create_secret` call appears in the trace). -/
theorem C4_store_is_read_merge_write (fenv : FaultEnv)
    (secrets : List (String × SStr)) (secret_name key password : String)
    (hg : fenv.svcGetFail secret_name = false)
    (hu : fenv.svcUpdateFail secret_name = false) :
    (∀ m, alookup secrets secret_name = some (SStr.json m) →
      (store_password_in_secrets_manager fenv secrets secret_name key
          password).2 =
        Except.ok (setKey secrets secret_name
          (SStr.json (setKey m key password))) ∧
      alookup (setKey secrets secret_name
          (SStr.json (setKey m key password))) secret_name =
        some (SStr.json (setKey m key password)) ∧
      alookup (setKey m key password) key = some password ∧
      ∀ k, k ≠ key → alookup (setKey m key password) k = alookup m k) ∧
    (alookup secrets secret_name = none →
      (store_password_in_secrets_manager fenv secrets secret_name key
          password).2 =
        Except.ok (setKey secrets secret_name
          (SStr.json [(key, password)])) ∧
      alookup (setKey secrets secret_name (SStr.json [(key, password)]))
          secret_name = some (SStr.json [(key, password)]) ∧
      Event.secretCreate secret_name ∈
        (store_password_in_secrets_manager fenv secrets secret_name key
          password).1) := by
  constructor
  · intro m hm
    refine ⟨?_, alookup_setKey_self _ _ _, alookup_setKey_self _ _ _,
      fun k hk => alookup_setKey_other _ _ _ _ hk⟩
    unfold store_password_in_secrets_manager
    simp [hg, hm, hu]
  · intro hm
    refine ⟨?_, alookup_setKey_self _ _ _, ?_⟩ <;>
      (unfold store_password_in_secrets_manager; simp [hg, hm, setKey])

/-- C4 witness: merging `DB_PASSWORD` into an existing object keeps the
unrelated key `DB_HOST`. -/
theorem C4_store_is_read_merge_write_witness :
    (store_password_in_secrets_manager fenvOk
        [("prod/billing-service", SStr.json [("DB_HOST", "h1")])]
        "prod/billing-service" "DB_PASSWORD" "p").2 =
      Except.ok [("prod/billing-service",
        SStr.json [("DB_HOST", "h1"), ("DB_PASSWORD", "p")])] :=
  ((C4_store_is_read_merge_write fenvOk
      [("prod/billing-service", SStr.json [("DB_HOST", "h1")])]
      "prod/billing-service" "DB_PASSWORD" "p" rfl rfl).1
    [("DB_HOST", "h1")] rfl).1

end PrepDb
